import Mathlib

/-!
# Verification of the z-bus protocol core

A shallow embedding of the z-bus home-automation API:
the command catalog (`src/command.ts`), the event codec (`src/deviceEvent.ts`),
the analog payload codec (`DimmerData` in `src/ZBus.ts`), and the declarative
state-machine engine (`src/machine/machine.ts`) with its four per-device-type
transition tables (`switchingDevice.ts`, `dimmerDevice.ts`, `directionalDevice.ts`,
`directionalGroupDevice.ts`).

Modelling conventions:
* JavaScript numbers that hold protocol bytes, addresses and command codes are
  modelled as `ℤ`; brightness/duration values as `ℚ` (the claims under test are
  tolerance claims, robust to the difference between binary floating point and
  exact rationals); `Math.round` is `round` (both round halves up).
* JavaScript bitwise `&` and `|` are `Int.land` / `Int.lor`; `<<` is `<<<`.
* Functions that `throw` return `Except String`, carrying the thrown message.
* The engine mutates the device record in place; here each operation returns
  the updated device next to its result value.
-/

namespace ZBus

/-- The `Command` enum of `src/command.ts`: symbolic command names and their
numeric protocol codes, in declaration order.  Codes may collide
(`toggle`/`start`… share codes with other names by design). -/
def commandEntries : List (String × ℤ) :=
  [("toggle", 0), ("up-stop", 48), ("down-stop", 192), ("start", 48),
   ("end", 192), ("on", 3), ("off", 12), ("up", 3), ("down", 12), ("stop", 15)]

/-- Forward lookup `Command[name]` (a `number` for declared names, `undefined`
otherwise, here `none`). -/
def commandCode (name : String) : Option ℤ :=
  commandEntries.lookup name

/-- `isCommand` of `src/command.ts` (`command in Command`), restricted to the
declared symbolic keys of the enum. -/
def isCommand (name : String) : Bool :=
  (commandCode name).isSome

/-- A z-bus communication event (`src/deviceEvent.ts`): address, numeric
command, optional two-byte payload. -/
structure DeviceEvent where
  address : ℤ
  command : ℤ
  data : Option (List ℤ) := none
deriving Repr, DecidableEq

/-- The payload-validation tail of the `DeviceEvent` constructor
(`src/deviceEvent.ts`, lines 49-63): length must be exactly 2,
each byte in `[0, 255]`. -/
def DeviceEvent.withData (address command : ℤ) (data? : Option (List ℤ)) :
    Except String DeviceEvent :=
  match data? with
  | none => .ok { address := address, command := command }
  | some data =>
    if data.length ≠ 2 then .error "Unsupported data length (must be 2 bytes)"
    else if data.any (fun value => decide (value < 0) || decide (value > 255)) then
      .error "Unsupported data values (must be 0 - 255)"
    else .ok { address := address, command := command, data := some data }

/-- The validating `DeviceEvent` constructor (`src/deviceEvent.ts`, lines
31-64).  The command argument is either a numeric code (`Sum.inl`) or a
symbolic name (`Sum.inr`), mirroring `number | keyof typeof Command`. -/
def DeviceEvent.make (address : ℤ) (command : ℤ ⊕ String)
    (data? : Option (List ℤ) := none) : Except String DeviceEvent :=
  if address < 0 ∨ address > 242 then .error "Unsupported address (must be 0 - 242)"
  else
    match command with
    | .inl code =>
      if code < 0 ∨ code > 255 then .error "Unsupported command (must be 0 - 255)"
      else DeviceEvent.withData address code data?
    | .inr name =>
      if ¬ isCommand name then .error "Unsupported command"
      else DeviceEvent.withData address ((commandCode name).getD 0) data?

/-- Brightness / ramp duration / ramp direction triple (`DimmerData` in
`src/ZBus.ts`). -/
structure DimmerData where
  brightness : ℚ
  duration : ℚ
  direction : ℤ
deriving Repr, DecidableEq

/-- `DimmerData.pack` (`src/ZBus.ts`, lines 880-909).  The existence check of
the source (fields possibly `undefined`) is vacuous here because the record
fields are total.  `byte0` is built exactly as in the source:
`data[0] |= durationCode; data[0] |= direction << 7`. -/
def DimmerData.pack (properties : DimmerData) : Except String (List ℤ) :=
  if properties.brightness < 0 ∨ properties.brightness > 1 then
    .error "Unsupported brightness (must be 0 - 1)"
  else if properties.duration < 0.04 ∨ properties.duration > 160 then
    .error "Unsupported duration (must be 0.04 - 160)"
  else if properties.direction ≠ 0 ∧ properties.brightness ≠ 1 then
    .error "Unsupported direction (must be 0 or 1)"
  else
    let durationCode : ℤ :=
      if properties.duration ≥ 2.55 then
        Int.land (round (properties.duration / 2.55)) 0x7f
      else
        Int.land (round (2.55 / properties.duration - 1) + 64) 0x7f
    let byte0 : ℤ := Int.lor (Int.lor 0 durationCode) (properties.direction <<< (7 : ℤ))
    let byte1 : ℤ := round (properties.brightness * 255)
    .ok [byte0, byte1]

/-- The unchecked field construction at the end of `DimmerData.unpack`
(`src/ZBus.ts`, lines 929-933): `data[0]`/`data[1]` are `getD` projections. -/
def DimmerData.unpackProperties (data : List ℤ) : DimmerData :=
  { brightness := (data.getD 1 0 : ℚ) / 255
    duration :=
      if Int.land (data.getD 0 0) 0x7f < 0x40 then
        ((Int.land (data.getD 0 0) 0x7f : ℤ) : ℚ) * 2.55
      else
        2.55 / (((Int.land (data.getD 0 0) 0x7f : ℤ) : ℚ) - 64 + 1)
    direction := Int.land (data.getD 0 0) 0x80 }

/-- `DimmerData.unpack` (`src/ZBus.ts`, lines 917-935): length and byte-range
validation, then the field construction. -/
def DimmerData.unpack (data : List ℤ) : Except String DimmerData :=
  if data.length ≠ 2 then .error "Unsupported data length (must be 2 bytes)"
  else if data.any (fun byte => decide (byte < 0x00) || decide (byte > 0xff)) then
    .error "Unsupported data values (must be 0x00 - 0xff)"
  else .ok (DimmerData.unpackProperties data)

/-! ## The state-machine engine (`src/machine/machine.ts`) -/

/-- The four device kinds (`DeviceType` in `src/device.ts`). -/
inductive DeviceType
  | switch
  | dimmer
  | directional
  | directionalGroup
deriving Repr, DecidableEq

/-- A device record (`Device` in `src/device.ts` plus the per-class auxiliary
fields).  `state` is the optional symbolic state (initially absent, read as
`"undefined"` by the engine).  The per-class `memory` field is split by its
declared TypeScript type: `memoryQ` is `DimmerDevice.memory?: number`,
`memoryS` is `Directional(Group)Device.memory?: 'up'|'down'|'stop'`.
`brightness` is `DimmerDevice.brightness?: number`. -/
structure Device where
  address : List ℤ
  type : DeviceType
  state : Option String := none
  brightness : Option ℚ := none
  memoryQ : Option ℚ := none
  memoryS : Option String := none
deriving Repr, DecidableEq

/-- `Action = (device, deviceEvent) => void`; mutation becomes returning the
updated device. -/
def Action : Type := Device → DeviceEvent → Device

/-- `Guard = (device, deviceEvent?) => boolean`. -/
def Guard : Type := Device → Option DeviceEvent → Bool

/-- A transition of the table (`Transition` in `src/machine/machine.ts`):
triggering command name, target state, optional actions and guard. -/
structure Transition where
  command : String
  target : String
  actions : List Action := []
  guard : Option Guard := none

/-- The `default` field of a `StateDefinition`:
`keyof typeof Command | Transition | Array<Transition>`. -/
inductive DefaultSpec
  | name (command : String)
  | single (t : Transition)
  | candidates (ts : List Transition)

/-- A state definition (`StateDefinition`): entry/exit actions, optional
default-transition spec, and the locally-scoped transitions (an association
list keyed by command name, in the insertion order of the source literal, so
that `Object.values` order is the list order). -/
structure StateDefinition where
  enter : List Action := []
  exit : List Action := []
  default : Option DefaultSpec := none
  transitions : List (String × Transition) := []

/-- A per-device-type machine definition (`MachineDefinition`): the optional
type-specific event constructor, the globally-scoped transitions, and the
state map.  The source looks states up by name with an `?? {}` fallback
(`states?.[name] ?? {}`); that keyed lookup with fallback is embedded as a
total function from state names. -/
structure MachineDefinition where
  event : Option (ℤ → (ℤ ⊕ String) → Option DimmerData → Except String DeviceEvent) := none
  transitions : List (String × Transition) := []
  states : String → StateDefinition

/-- A `StateResult`: the observable outcome of one engine step. -/
structure StateResult where
  state : String
  previous : Option String
  device : Device
  event : DeviceEvent
deriving Repr, DecidableEq

/-! ## Transition tables of the four device kinds -/

/-- `SwitchingDevice.Machine` (`src/switchingDevice.ts`, lines 119-153). -/
def SwitchingDevice.Machine : MachineDefinition where
  transitions :=
    [("on", { command := "on", target := "on" }),
     ("off", { command := "off", target := "off" })]
  states := fun s =>
    match s with
    | "undefined" => { default := some (.name "on") }
    | "off" =>
      { default := some (.name "on")
        transitions := [("toggle", { command := "toggle", target := "on" })] }
    | "on" =>
      { default := some (.name "off")
        transitions := [("toggle", { command := "toggle", target := "off" })] }
    | _ => {}

/-- `DimmerDevice.setBrightness` (`src/dimmerDevice.ts`, lines 143-145):
`device.brightness = event.data ? DimmerData.unpack(event.data).brightness : 1.0`.
The range checks of `unpack` never fire on payloads of events built by the
validating `DeviceEvent` constructor, so the action reads the unpacked
properties directly. -/
def DimmerDevice.setBrightness : Action := fun device event =>
  match event.data with
  | some data => { device with brightness := some (DimmerData.unpackProperties data).brightness }
  | none => { device with brightness := some 1.0 }

/-- `DimmerDevice.resetBrightness` (`src/dimmerDevice.ts`, lines 147-150):
`device.memory = device?.brightness; device.brightness = 0.0`. -/
def DimmerDevice.resetBrightness : Action := fun device _ =>
  { device with memoryQ := device.brightness, brightness := some 0.0 }

/-- `DimmerDevice.restoreBrightness` (`src/dimmerDevice.ts`, lines 152-154):
`device.brightness = device?.memory ?? 1.0`. -/
def DimmerDevice.restoreBrightness : Action := fun device _ =>
  { device with brightness := some (device.memoryQ.getD 1.0) }

/-- `DimmerDevice.createEvent` (`src/dimmerDevice.ts`, lines 139-141):
`new DeviceEvent(address, command, data !== undefined ? DimmerData.pack(data) : undefined)`. -/
def DimmerDevice.createEvent (address : ℤ) (command : ℤ ⊕ String)
    (data? : Option DimmerData) : Except String DeviceEvent :=
  match data? with
  | some data =>
    match DimmerData.pack data with
    | .ok bytes => DeviceEvent.make address command (some bytes)
    | .error e => .error e
  | none => DeviceEvent.make address command none

/-- `DimmerDevice.Machine` (`src/dimmerDevice.ts`, lines 156-194). -/
def DimmerDevice.Machine : MachineDefinition where
  event := some DimmerDevice.createEvent
  transitions :=
    [("on", { target := "on", command := "on", actions := [DimmerDevice.setBrightness] }),
     ("off", { command := "off", target := "off" })]
  states := fun s =>
    match s with
    | "undefined" => { default := some (.name "on") }
    | "off" =>
      { enter := [DimmerDevice.resetBrightness]
        default := some (.name "on")
        transitions :=
          [("toggle", { command := "toggle", target := "on"
                        actions := [DimmerDevice.restoreBrightness] })] }
    | "on" =>
      { default := some (.name "off")
        transitions := [("toggle", { command := "toggle", target := "off" })] }
    | _ => {}

/-- The entry action of the directional `stop` state
(`src/directionalDevice.ts` machine, lines 187-191):
`device.memory = device?.state`. -/
def DirectionalDevice.stopEnter : Action := fun device _ =>
  { device with memoryS := device.state }

/-- First candidate of the directional `stop` default array: go `up` when
memory is `down` or absent (`(device?.memory ?? 'down') === 'down'`). -/
def DirectionalDevice.defaultUp : Transition where
  command := "up"
  target := "up"
  guard := some (fun device _ => device.memoryS.getD "down" == "down")

/-- Second candidate of the directional `stop` default array: go `down` when
memory is `up` (`device?.memory === 'up'`). -/
def DirectionalDevice.defaultDown : Transition where
  command := "down"
  target := "down"
  guard := some (fun device _ => device.memoryS == some "up")

/-- `DirectionalDevice.Machine` (`src/directionalDevice.ts`, lines 141-216). -/
def DirectionalDevice.Machine : MachineDefinition where
  transitions :=
    [("up", { command := "up", target := "up" }),
     ("down", { command := "down", target := "down" }),
     ("stop", { command := "stop", target := "stop" })]
  states := fun s =>
    match s with
    | "undefined" => { default := some (.name "up") }
    | "up" =>
      { default := some (.name "stop")
        transitions :=
          [("up-stop", { command := "up-stop", target := "stop" }),
           ("down-stop", { command := "down-stop", target := "down" })] }
    | "down" =>
      { default := some (.name "stop")
        transitions :=
          [("up-stop", { command := "up-stop", target := "up" }),
           ("down-stop", { command := "down-stop", target := "stop" })] }
    | "stop" =>
      { enter := [DirectionalDevice.stopEnter]
        default := some (.candidates [DirectionalDevice.defaultUp, DirectionalDevice.defaultDown])
        transitions :=
          [("up-stop", { command := "up-stop", target := "up" }),
           ("down-stop", { command := "down-stop", target := "down" })] }
    | _ => {}

/-- Guard of the directional-group global transitions
(`src/directionalGroupDevice.ts`, lines 139-153): the triggering address must
equal the group (index 1) or central (index 2) address
(`device.address?.[1] === event?.address || device.address?.[2] === event?.address`;
`Option` equality mirrors the `undefined === undefined` case). -/
def DirectionalGroupDevice.groupCentralGuard : Guard := fun device event? =>
  device.address.get? 1 == event?.map (·.address) ||
    device.address.get? 2 == event?.map (·.address)

/-- Guard of the directional-group local transitions: the triggering address
must equal the own address (`device.address[0] === event?.address`). -/
def DirectionalGroupDevice.ownGuard : Guard := fun device event? =>
  device.address.get? 0 == event?.map (·.address)

/-- Entry action of the directional-group `stop` state:
`device.memory = device?.state`. -/
def DirectionalGroupDevice.stopEnter : Action := fun device _ =>
  { device with memoryS := device.state }

/-- First candidate of the directional-group `stop` default array. -/
def DirectionalGroupDevice.defaultUp : Transition where
  command := "up-stop"
  target := "up"
  guard := some (fun device _ => device.memoryS.getD "down" == "down")

/-- Second candidate of the directional-group `stop` default array. -/
def DirectionalGroupDevice.defaultDown : Transition where
  command := "down-stop"
  target := "down"
  guard := some (fun device _ => device.memoryS == some "up")

/-- `DirectionalGroupDevice.Machine` (`src/directionalGroupDevice.ts`,
lines 134-225). -/
def DirectionalGroupDevice.Machine : MachineDefinition where
  transitions :=
    [("up", { command := "up", target := "up"
              guard := some DirectionalGroupDevice.groupCentralGuard }),
     ("down", { command := "down", target := "down"
                guard := some DirectionalGroupDevice.groupCentralGuard }),
     ("stop", { command := "stop", target := "stop"
                guard := some DirectionalGroupDevice.groupCentralGuard })]
  states := fun s =>
    match s with
    | "undefined" => {}
    | "up" =>
      { default := some (.name "up-stop")
        transitions :=
          [("up-stop", { command := "up-stop", target := "stop"
                         guard := some DirectionalGroupDevice.ownGuard }),
           ("down-stop", { command := "down-stop", target := "down"
                           guard := some DirectionalGroupDevice.ownGuard })] }
    | "down" =>
      { default := some (.name "down-stop")
        transitions :=
          [("up-stop", { command := "up-stop", target := "up"
                         guard := some DirectionalGroupDevice.ownGuard }),
           ("down-stop", { command := "down-stop", target := "stop"
                           guard := some DirectionalGroupDevice.ownGuard })] }
    | "stop" =>
      { enter := [DirectionalGroupDevice.stopEnter]
        default := some (.candidates
          [DirectionalGroupDevice.defaultUp, DirectionalGroupDevice.defaultDown])
        transitions :=
          [("up-stop", { command := "up-stop", target := "up"
                         guard := some DirectionalGroupDevice.ownGuard }),
           ("down-stop", { command := "down-stop", target := "down"
                           guard := some DirectionalGroupDevice.ownGuard })] }
    | _ => {}

/-- The `machineDefinitions` table keyed by device type. -/
def machineDefinitions (t : DeviceType) : MachineDefinition :=
  match t with
  | .switch => SwitchingDevice.Machine
  | .dimmer => DimmerDevice.Machine
  | .directional => DirectionalDevice.Machine
  | .directionalGroup => DirectionalGroupDevice.Machine

/-! ## Engine operations -/

/-- `Machine.getMachineDefinition`: table lookup by device type. -/
def Machine.getMachineDefinition (device : Device) : MachineDefinition :=
  machineDefinitions device.type

/-- `Machine.getCurrentStateDefinition`:
`machineDefinitions?.[device.type]?.states?.[device?.state ?? 'undefined'] ?? {}`. -/
def Machine.getCurrentStateDefinition (device : Device) : StateDefinition :=
  (machineDefinitions device.type).states (device.state.getD "undefined")

/-- `Machine.getTargetStateDefinition`:
`machineDefinitions?.[device.type]?.states?.[target ?? 'undefined'] ?? {}`. -/
def Machine.getTargetStateDefinition (device : Device) (target? : Option String) :
    StateDefinition :=
  (machineDefinitions device.type).states (target?.getD "undefined")

/-- `Machine.getAllowedTransitions`: the values of the current state's local
transitions followed by the values of the global transitions, filtered by
guards (absent guard means always allowed). -/
def Machine.getAllowedTransitions (device : Device) (event? : Option DeviceEvent) :
    List Transition :=
  ((Machine.getCurrentStateDefinition device).transitions.map Prod.snd ++
      (Machine.getMachineDefinition device).transitions.map Prod.snd).filter
    (fun t => match t.guard with
      | some g => g device event?
      | none => true)

/-- Sequential execution of an action list against a device
(`actions.forEach((action) => action(device, event))`). -/
def Machine.runActions (actions : List Action) (event : DeviceEvent) (device : Device) :
    Device :=
  actions.foldl (fun d a => a d event) device

/-- `Machine.execute` (`src/machine/machine.ts`, lines 141-166): when both a
transition and an event are present, runs the current state's exit actions,
then the transition's actions, then the target state's entry actions, then
commits `device.state = transition.target` and returns the `StateResult`;
otherwise returns `undefined` and leaves the device untouched. -/
def Machine.execute (device : Device) (transition? : Option Transition)
    (event? : Option DeviceEvent) : Device × Option StateResult :=
  match transition?, event? with
  | some transition, some event =>
    let previous := device.state
    let afterExit :=
      Machine.runActions (Machine.getCurrentStateDefinition device).exit event device
    let afterActions := Machine.runActions transition.actions event afterExit
    let afterEnter :=
      Machine.runActions
        (Machine.getTargetStateDefinition afterActions (some transition.target)).enter
        event afterActions
    let committed := { afterEnter with state := some transition.target }
    (committed,
      some { state := transition.target, previous := previous,
             device := committed, event := event })
  | _, _ => (device, none)

/-- `Machine.receive` (`src/machine/machine.ts`, lines 204-213): a no-op
unless the event's address is among the device's addresses; otherwise finds
the first allowed transition whose command code equals the event's command
(`Command[transition?.command] === event?.command`) and executes it. -/
def Machine.receive (device : Device) (event : DeviceEvent) :
    Device × Option StateResult :=
  if device.address.contains event.address then
    let transition? := (Machine.getAllowedTransitions device (some event)).find?
      (fun t => commandCode t.command == some event.command)
    Machine.execute device transition? (some event)
  else (device, none)

/-- The candidate list built by `Machine.getDefaultTransition`
(`src/machine/machine.ts`, lines 108-128): a bare command name is looked up in
the local then the global transitions, a single `Transition` or an array is
used as given; the result is filtered by guards, each guard receiving the
pseudo-event `{ address: device.address[0] }` (its `command` is never read by
any table guard; the embedding fills it with `0`). -/
def Machine.defaultCandidates (device : Device) : List Transition :=
  let currentStateDefinition := Machine.getCurrentStateDefinition device
  let machineDefinition := Machine.getMachineDefinition device
  let base : List Transition :=
    match currentStateDefinition.default with
    | some (.name n) =>
      match currentStateDefinition.transitions.lookup n with
      | some t => [t]
      | none =>
        match machineDefinition.transitions.lookup n with
        | some t => [t]
        | none => []
    | some (.single t) => [t]
    | some (.candidates ts) => ts
    | none => []
  base.filter (fun t => match t.guard with
    | some g => g device (some { address := device.address.getD 0 0, command := 0 })
    | none => true)

/-- `Machine.getDefaultTransition` (`src/machine/machine.ts`, lines 108-130):
the guard-filtered candidate list must reduce to exactly one transition
(`_transition.length === 1 ? _transition[0] : undefined`). -/
def Machine.getDefaultTransition (device : Device) : Option Transition :=
  let filtered := Machine.defaultCandidates device
  if filtered.length = 1 then filtered.head? else none

/-- The command argument of `Machine.transmit`:
`keyof typeof Command | 'default' | number`. -/
inductive TransmitCommand
  | default
  | name (s : String)
  | num (code : ℤ)

/-- `Machine.transmit` (`src/machine/machine.ts`, lines 168-202).  `data` may
be a raw byte array (`Sum.inl`) or dimmer properties (`Sum.inr`, the
non-array `any`).  When the resolved address or command is `undefined` the
function returns `undefined` without touching the device; otherwise it builds
the event through the table's type-specific constructor (when defined and
`data` is not an array) or the plain `DeviceEvent` constructor, feeds it back
into `receive` when `changeState` is set, and returns it. -/
def Machine.transmit (device : Device) (command : TransmitCommand)
    (data? : Option (List ℤ ⊕ DimmerData) := none) (addressIndex : ℕ := 0)
    (changeState : Bool := true) : Except String (Device × Option DeviceEvent) :=
  let address? := device.address.get? addressIndex
  let command? : Option (ℤ ⊕ String) :=
    match command with
    | .default => (Machine.getDefaultTransition device).map (fun t => Sum.inr t.command)
    | .name s => some (Sum.inr s)
    | .num code => some (Sum.inl code)
  match address?, command? with
  | some address, some resolved =>
    let eventE : Except String DeviceEvent :=
      match (Machine.getMachineDefinition device).event, data? with
      | some mkEvent, none => mkEvent address resolved none
      | some mkEvent, some (Sum.inr properties) => mkEvent address resolved (some properties)
      | some _, some (Sum.inl bytes) => DeviceEvent.make address resolved (some bytes)
      | none, some (Sum.inl bytes) => DeviceEvent.make address resolved (some bytes)
      | none, _ => DeviceEvent.make address resolved none
    match eventE with
    | .error e => .error e
    | .ok event =>
      if changeState then .ok ((Machine.receive device event).1, some event)
      else .ok (device, some event)
  | _, _ => .ok (device, none)

/-! ## Device constructors -/

/-- The `SwitchingDevice` constructor (`src/switchingDevice.ts`, lines 35-42). -/
def SwitchingDevice.make (address : ℤ) : Except String Device :=
  if address < 0 ∨ address > 242 then .error "Unsupported address (must be 0 - 242)"
  else .ok { address := [address], type := .switch }

/-- The `DimmerDevice` constructor (`src/dimmerDevice.ts`, lines 52-59). -/
def DimmerDevice.make (address : ℤ) : Except String Device :=
  if address < 0 ∨ address > 242 then .error "Unsupported address (must be 0 - 242)"
  else .ok { address := [address], type := .dimmer }

/-- The `DirectionalDevice` constructor (`src/directionalDevice.ts` machine
variant, lines 35-42). -/
def DirectionalDevice.make (address : ℤ) : Except String Device :=
  if address < 0 ∨ address > 242 then .error "Unsupported address (must be 0 - 242)"
  else .ok { address := [address], type := .directional }

/-- The `DirectionalGroupDevice` constructor
(`src/directionalGroupDevice.ts`, lines 39-48). -/
def DirectionalGroupDevice.make (address group central : ℤ) : Except String Device :=
  if address < 0 ∨ address > 242 then .error "Unsupported address (must be 0 - 242)"
  else if group < 0 ∨ group > 242 then .error "Unsupported address (must be 0 - 242)"
  else if central < 0 ∨ central > 242 then .error "Unsupported address (must be 0 - 242)"
  else .ok { address := [address, group, central], type := .directionalGroup }


/-- The duration quantization step of the codec at duration `d`: one linear
step of `2.55` in the slow-ramp range, and the gap between the two reciprocal
code points around `d` in the fast-ramp range. -/
def durationStep (d : ℚ) : ℚ :=
  if 2.55 ≤ d then 2.55
  else 2.55 / ((round (2.55 / d) : ℚ) * ((round (2.55 / d) : ℚ) + 1))

/-! ## Arithmetic helper lemmas -/

theorem nat_land_127_lt : ∀ n < 128, n &&& 127 = n := by decide

/-- `x & 0x7f` is the identity on `[0, 127]`. -/
theorem int_land_127 {z : ℤ} (h0 : 0 ≤ z) (h1 : z < 128) : Int.land z 127 = z := by
  lift z to ℕ using h0 with n
  have hn : n < 128 := by exact_mod_cast h1
  have : Int.land (n : ℤ) 127 = ((n &&& 127 : ℕ) : ℤ) := rfl
  rw [this, nat_land_127_lt n hn]

/-- `x | 0` is the identity on nonnegative integers. -/
theorem int_lor_zero {z : ℤ} (h0 : 0 ≤ z) : Int.lor z 0 = z := by
  lift z to ℕ using h0 with n
  have h : Int.lor (n : ℤ) 0 = ((n ||| 0 : ℕ) : ℤ) := rfl
  have h2 : n ||| 0 = n := by simp
  rw [h, h2]

/-- `0 | x` is the identity on nonnegative integers. -/
theorem int_zero_lor {z : ℤ} (h0 : 0 ≤ z) : Int.lor 0 z = z := by
  lift z to ℕ using h0 with n
  have h : Int.lor 0 (n : ℤ) = ((0 ||| n : ℕ) : ℤ) := rfl
  have h2 : 0 ||| n = n := by simp
  rw [h, h2]

theorem int_zero_shiftLeft_seven : (0 : ℤ) <<< (7 : ℤ) = 0 := by decide

/-- Rounding stays inside a closed integer interval. -/
theorem round_nonneg {x : ℚ} (h : 0 ≤ x) : 0 ≤ round x := by
  have h1 := sub_half_lt_round x
  have h2 : (-1 : ℚ) < (round x : ℚ) := by linarith
  have h3 : (-1 : ℤ) < round x := by exact_mod_cast h2
  omega

theorem round_le_of_le {x : ℚ} {n : ℤ} (h : x + 1/2 < n + 1) : round x ≤ n := by
  have h1 := round_le_add_half x
  have h2 : (round x : ℚ) < (n : ℚ) + 1 := lt_of_le_of_lt h1 h
  have h3 : round x < n + 1 := by exact_mod_cast h2
  omega

theorem one_le_round {x : ℚ} (h : 1 ≤ x) : 1 ≤ round x := by
  have h1 := sub_half_lt_round x
  have h2 : (0 : ℚ) < (round x : ℚ) := by linarith
  have h3 : (0 : ℤ) < round x := by exact_mod_cast h2
  omega


/-- `unpack` succeeds on any two bytes in range and returns the unpacked
properties. -/
theorem unpack_ok_of_bytes {b0 b1 : ℤ} (h00 : 0 ≤ b0) (h01 : b0 ≤ 255)
    (h10 : 0 ≤ b1) (h11 : b1 ≤ 255) :
    DimmerData.unpack [b0, b1] = .ok (DimmerData.unpackProperties [b0, b1]) := by
  unfold DimmerData.unpack
  rw [if_neg (by simp), if_neg ?hbytes]
  case hbytes =>
    simp only [List.any_cons, List.any_nil, Bool.or_false, Bool.or_eq_true,
      decide_eq_true_eq]
    push_neg
    refine ⟨⟨by omega, by omega⟩, by omega, by omega⟩

/-- The shape of the unpacked properties of a two-byte packet. -/
theorem unpackProperties_pair (b0 b1 : ℤ) :
    DimmerData.unpackProperties [b0, b1] =
      { brightness := ((b1 : ℤ) : ℚ) / 255
        duration :=
          if Int.land b0 0x7f < 0x40 then ((Int.land b0 0x7f : ℤ) : ℚ) * 2.55
          else 2.55 / (((Int.land b0 0x7f : ℤ) : ℚ) - 64 + 1)
        direction := Int.land b0 0x80 } := rfl

/-- The quantized brightness is within `1/255`. -/
theorem round_brightness_close {b : ℚ} :
    |(round (b * 255) : ℚ) / 255 - b| ≤ 1 / 255 := by
  have h := abs_sub_round (b * 255)
  rw [abs_sub_comm] at h
  have heq : (round (b * 255) : ℚ) / 255 - b = ((round (b * 255) : ℚ) - b * 255) / 255 := by
    ring
  rw [heq, abs_div, abs_of_pos (by norm_num : (0:ℚ) < 255)]
  calc |(round (b * 255) : ℚ) - b * 255| / 255 ≤ (1/2) / 255 := by gcongr
    _ ≤ 1 / 255 := by norm_num


/-- Evaluation of `pack` on a valid direction-0 input, slow-ramp range. -/
theorem pack_eval_linear {b d : ℚ} (hb0 : 0 ≤ b) (hb1 : b ≤ 1)
    (hd1 : d ≤ 160) (hlin : 2.55 ≤ d) :
    DimmerData.pack { brightness := b, duration := d, direction := 0 } =
      .ok [round (d / 2.55), round (b * 255)] := by
  have hx1 : (1 : ℚ) ≤ d / 2.55 := by
    rw [le_div_iff₀ (by norm_num : (0:ℚ) < 2.55)]
    linarith
  have hc1 : 1 ≤ round (d / 2.55) := one_le_round hx1
  have hc63 : round (d / 2.55) ≤ 63 := by
    refine round_le_of_le ?_
    have hdle : d / 2.55 ≤ 160 / 2.55 := by gcongr
    push_cast
    linarith [show (160:ℚ)/2.55 + 1/2 < 64 by norm_num]
  unfold DimmerData.pack
  rw [if_neg (by simp only [not_or, not_lt]; exact ⟨hb0, hb1⟩)]
  rw [if_neg (by simp only [not_or, not_lt]; constructor <;> linarith)]
  rw [if_neg (by simp)]
  simp only [ge_iff_le, if_pos hlin]
  rw [int_land_127 (by omega) (by omega), int_zero_shiftLeft_seven,
    int_zero_lor (by omega), int_lor_zero (by omega)]

/-- Evaluation of `pack` on a valid direction-0 input, fast-ramp range. -/
theorem pack_eval_reciprocal {b d : ℚ} (hb0 : 0 ≤ b) (hb1 : b ≤ 1)
    (hd0 : 0.04 ≤ d) (hrec : d < 2.55) :
    DimmerData.pack { brightness := b, duration := d, direction := 0 } =
      .ok [round (2.55 / d) + 63, round (b * 255)] := by
  have hd_pos : 0 < d := by linarith [show (0:ℚ) < 0.04 by norm_num]
  have hr1 : (1 : ℚ) < 2.55 / d := (one_lt_div hd_pos).2 hrec
  have hr2 : (2.55 : ℚ) / d ≤ 2.55 / 0.04 :=
    div_le_div_of_nonneg_left (by norm_num) (by norm_num) hd0
  have hk1 : 1 ≤ round ((2.55 : ℚ) / d) := one_le_round (le_of_lt hr1)
  have hk64 : round ((2.55 : ℚ) / d) ≤ 64 := by
    refine round_le_of_le ?_
    push_cast
    linarith [show (2.55:ℚ)/0.04 + 1/2 < 65 by norm_num]
  have hshift : round ((2.55 : ℚ) / d - 1) = round ((2.55 : ℚ) / d) - 1 := round_sub_one _
  unfold DimmerData.pack
  rw [if_neg (by simp only [not_or, not_lt]; exact ⟨hb0, hb1⟩)]
  rw [if_neg (by simp only [not_or, not_lt]; constructor <;> linarith)]
  rw [if_neg (by simp)]
  simp only [ge_iff_le, if_neg (by linarith : ¬ (2.55 : ℚ) ≤ d)]
  rw [hshift]
  have harith : round ((2.55 : ℚ) / d) - 1 + 64 = round ((2.55 : ℚ) / d) + 63 := by ring
  rw [harith]
  rw [int_land_127 (by omega) (by omega), int_zero_shiftLeft_seven,
    int_zero_lor (by omega), int_lor_zero (by omega)]


/-- C3: for every brightness `b ∈ [0,1]` and duration `d ∈ [0.04,160]`,
`unpack (pack {brightness := b, duration := d, direction := 0})` succeeds, the
unpacked brightness is within `1/255` of `b`, and the unpacked duration is
within the quantization step of the codec at `d` (`2.55` in the linear range
`d ≥ 2.55`, the reciprocal-mapping step below it). -/
theorem pack_unpack_roundtrip_close (b d : ℚ) (hb0 : 0 ≤ b) (hb1 : b ≤ 1)
    (hd0 : 0.04 ≤ d) (hd1 : d ≤ 160) :
    ∃ result,
      (DimmerData.pack { brightness := b, duration := d, direction := 0 }).bind
          DimmerData.unpack = .ok result ∧
      |result.brightness - b| ≤ 1 / 255 ∧
      |result.duration - d| ≤ durationStep d := by
  have hd_pos : 0 < d := by linarith [show (0:ℚ) < 0.04 by norm_num]
  have hB0 : 0 ≤ round (b * 255) := round_nonneg (by positivity)
  have hB1 : round (b * 255) ≤ 255 := by
    refine round_le_of_le ?_
    push_cast
    nlinarith
  rcases le_or_lt (2.55 : ℚ) d with hlin | hrec
  · -- linear range
    have hx1 : (1 : ℚ) ≤ d / 2.55 := by
      rw [le_div_iff₀ (by norm_num : (0:ℚ) < 2.55)]
      linarith
    have hc1 : 1 ≤ round (d / 2.55) := one_le_round hx1
    have hc63 : round (d / 2.55) ≤ 63 := by
      refine round_le_of_le ?_
      have hdle : d / 2.55 ≤ 160 / 2.55 := by gcongr
      push_cast
      linarith [show (160:ℚ)/2.55 + 1/2 < 64 by norm_num]
    refine ⟨DimmerData.unpackProperties [round (d / 2.55), round (b * 255)], ?_, ?_, ?_⟩
    · rw [pack_eval_linear hb0 hb1 hd1 hlin]
      show DimmerData.unpack _ = _
      exact unpack_ok_of_bytes (by omega) (by omega) hB0 hB1
    · rw [unpackProperties_pair]
      exact round_brightness_close
    · rw [unpackProperties_pair]
      have hland : Int.land (round (d / 2.55)) 0x7f = round (d / 2.55) :=
        int_land_127 (by omega) (by omega)
      simp only [hland, if_pos (show round (d / 2.55) < 0x40 by omega)]
      rw [durationStep, if_pos hlin]
      have habs := abs_sub_round (d / 2.55)
      have heq : (round (d / 2.55) : ℚ) * 2.55 - d =
          -(2.55 * (d / 2.55 - (round (d / 2.55) : ℚ))) := by
        field_simp
        ring
      rw [heq, abs_neg, abs_mul, abs_of_pos (by norm_num : (0:ℚ) < 2.55)]
      nlinarith
  · -- reciprocal range
    have hr1 : (1 : ℚ) < 2.55 / d := (one_lt_div hd_pos).2 hrec
    have hr2 : (2.55 : ℚ) / d ≤ 2.55 / 0.04 :=
      div_le_div_of_nonneg_left (by norm_num) (by norm_num) hd0
    have hk1 : 1 ≤ round ((2.55 : ℚ) / d) := one_le_round (le_of_lt hr1)
    have hk64 : round ((2.55 : ℚ) / d) ≤ 64 := by
      refine round_le_of_le ?_
      push_cast
      linarith [show (2.55:ℚ)/0.04 + 1/2 < 65 by norm_num]
    have hkQ1 : (1 : ℚ) ≤ (round ((2.55 : ℚ) / d) : ℚ) := by exact_mod_cast hk1
    have hk_pos : (0 : ℚ) < (round ((2.55 : ℚ) / d) : ℚ) := by linarith
    refine ⟨DimmerData.unpackProperties [round ((2.55 : ℚ) / d) + 63, round (b * 255)],
      ?_, ?_, ?_⟩
    · rw [pack_eval_reciprocal hb0 hb1 hd0 hrec]
      show DimmerData.unpack _ = _
      exact unpack_ok_of_bytes (by omega) (by omega) hB0 hB1
    · rw [unpackProperties_pair]
      exact round_brightness_close
    · rw [unpackProperties_pair]
      rw [durationStep, if_neg (by linarith : ¬ (2.55 : ℚ) ≤ d)]
      have habs : |2.55 / d - (round ((2.55 : ℚ) / d) : ℚ)| ≤ 1/2 := abs_sub_round _
      obtain ⟨k, hkdef⟩ : ∃ k, round ((2.55 : ℚ) / d) = k := ⟨_, rfl⟩
      rw [hkdef] at hk1 hk64 habs ⊢
      rw [abs_le] at habs
      have hland : Int.land (k + 63) 0x7f = k + 63 := int_land_127 (by omega) (by omega)
      simp only [hland]
      rw [if_neg (by omega : ¬ k + 63 < 0x40)]
      have hcast : ((k + 63 : ℤ) : ℚ) - 64 + 1 = (k : ℚ) := by
        push_cast
        ring
      rw [hcast]
      have hkQ1 : (1 : ℚ) ≤ (k : ℚ) := by exact_mod_cast hk1
      have hk_pos : (0 : ℚ) < (k : ℚ) := by linarith
      have hrd_pos : (0 : ℚ) < 2.55 / d := by positivity
      have hr_half : ((k : ℚ) + 1) / 2 ≤ 2.55 / d := by
        rcases (by omega : k = 1 ∨ 2 ≤ k) with h1 | h2
        · subst h1
          push_cast
          linarith
        · have h2Q : (2 : ℚ) ≤ (k : ℚ) := by exact_mod_cast h2
          linarith [habs.1]
      have hd_ne : d ≠ 0 := ne_of_gt hd_pos
      have hk_ne : (k : ℚ) ≠ 0 := ne_of_gt hk_pos
      have heq : 2.55 / (k : ℚ) - d = 2.55 * (2.55 / d - (k : ℚ)) / ((k : ℚ) * (2.55 / d)) := by
        field_simp
        ring
      rw [heq, abs_div, abs_mul, abs_of_pos (by norm_num : (0:ℚ) < 2.55),
        abs_of_pos (mul_pos hk_pos hrd_pos)]
      have habs2 : |2.55 / d - (k : ℚ)| ≤ 1/2 := abs_le.2 habs
      have step1 : 2.55 * |2.55 / d - (k : ℚ)| / ((k : ℚ) * (2.55 / d)) ≤
          2.55 * (1/2) / ((k : ℚ) * (2.55 / d)) := by gcongr
      have step2 : 2.55 * (1/2) / ((k : ℚ) * (2.55 / d)) ≤
          2.55 / ((k : ℚ) * ((k : ℚ) + 1)) := by
        rw [div_le_div_iff₀ (by positivity) (by positivity)]
        nlinarith [mul_le_mul_of_nonneg_left hr_half (le_of_lt hk_pos)]
      linarith


/-- `0.04 ≤ 8` over `ℚ` (scientific literals do not kernel-reduce). -/
theorem q004_le_8 : (0.04 : ℚ) ≤ 8 := by norm_num

/-- Witness for C3 at the concrete input `b = 1`, `d = 8`. -/
theorem pack_unpack_roundtrip_close_witness :
    (0 : ℚ) ≤ 1 ∧ (1 : ℚ) ≤ 1 ∧ (0.04 : ℚ) ≤ 8 ∧ (8 : ℚ) ≤ 160 ∧
    ∃ result,
      (DimmerData.pack { brightness := 1, duration := 8, direction := 0 }).bind
          DimmerData.unpack = .ok result ∧
      |result.brightness - 1| ≤ 1 / 255 ∧
      |result.duration - 8| ≤ durationStep 8 :=
  ⟨by decide, by decide, q004_le_8, by decide,
    pack_unpack_roundtrip_close 1 8 (by decide) (by decide) q004_le_8 (by decide)⟩


/-- C4: construction/pack-time validation is fail-fast and raises exactly on
invalid input.  The `DeviceEvent` constructor throws exactly when the address
is outside `[0,242]`, a numeric command is outside `[0,255]`, a symbolic name
is not in the catalog, a supplied payload is not exactly 2 elements, or some
payload element is outside `[0,255]`; `DimmerData.pack` throws exactly when
brightness is outside `[0,1]`, duration outside `[0.04,160]`, or direction is
nonzero while brightness is not 1.  Otherwise both return normally. -/
theorem validation_fail_fast :
    (∀ (address : ℤ) (command : ℤ ⊕ String) (data? : Option (List ℤ)),
      (∃ e, DeviceEvent.make address command data? = .error e) ↔
        ((address < 0 ∨ address > 242) ∨
         (match command with
          | .inl code => code < 0 ∨ code > 255
          | .inr name => ¬ isCommand name) ∨
         (match data? with
          | none => False
          | some data => data.length ≠ 2 ∨ ∃ v ∈ data, v < 0 ∨ v > 255))) ∧
    (∀ properties : DimmerData,
      (∃ e, DimmerData.pack properties = .error e) ↔
        ((properties.brightness < 0 ∨ properties.brightness > 1) ∨
         (properties.duration < 0.04 ∨ properties.duration > 160) ∨
         (properties.direction ≠ 0 ∧ properties.brightness ≠ 1))) := by
  constructor
  · intro address command data?
    rcases command with code | name <;> rcases data? with _ | data <;>
        simp only [DeviceEvent.make, DeviceEvent.withData] <;>
        split_ifs <;>
        simp_all [List.any_eq_true]
  · intro properties
    unfold DimmerData.pack
    split_ifs with h1 h2 h3
    · exact iff_of_true ⟨_, rfl⟩ (Or.inl h1)
    · exact iff_of_true ⟨_, rfl⟩ (Or.inr (Or.inl h2))
    · exact iff_of_true ⟨_, rfl⟩ (Or.inr (Or.inr h3))
    · refine iff_of_false ?_ ?_
      · rintro ⟨e, he⟩
        simp at he
      · rintro (h | h | h)
        exacts [h1 h, h2 h, h3 h]

/-- C10 exhibit: on the two-byte packet `[0x80, 0x00]` (direction bit set),
`unpack` reports `direction = 128` — the raw masked byte, not the documented
`0`/`1` flag. -/
theorem unpack_direction_code_bug :
    ∃ result, DimmerData.unpack [0x80, 0x00] = .ok result ∧
      result.direction = 128 ∧ result.direction ≠ 0 ∧ result.direction ≠ 1 := by
  refine ⟨DimmerData.unpackProperties [0x80, 0x00], ?_, by decide, by decide, by decide⟩
  exact unpack_ok_of_bytes (by norm_num) (by norm_num) (by norm_num) (by norm_num)


/-- Actions that never write the `state` field leave it unchanged when run in
sequence. -/
theorem runActions_state :
    ∀ (actions : List Action),
      (∀ a ∈ actions, ∀ d e, (a d e).state = d.state) →
      ∀ (event : DeviceEvent) (device : Device),
        (Machine.runActions actions event device).state = device.state
  | [], _, _, _ => rfl
  | a :: as, h, e, d => by
    show (Machine.runActions as e (a d e)).state = d.state
    rw [runActions_state as (fun b hb => h b (List.mem_cons_of_mem _ hb)) e (a d e),
      h a (List.mem_cons_self _ _) d e]

/-- C1: for every device, transition and event, `Machine.execute` runs, in
strict order, the current state's exit actions, the transition's actions and
the target state's entry actions, and only then commits
`device.state = transition.target`; the `StateResult` carries the new state,
the previous state, the device and the triggering event.  Moreover, when the
exit and transition actions do not write the `state` field, the device on
which the entry actions start still holds the old state. -/
theorem execute_action_order (device : Device) (transition : Transition)
    (event : DeviceEvent) :
    (Machine.execute device (some transition) (some event) =
      (let afterExit :=
        Machine.runActions (Machine.getCurrentStateDefinition device).exit event device
       let afterActions := Machine.runActions transition.actions event afterExit
       let afterEnter :=
        Machine.runActions
          (Machine.getTargetStateDefinition afterActions (some transition.target)).enter
          event afterActions
       let committed := { afterEnter with state := some transition.target }
       (committed,
        some { state := transition.target, previous := device.state,
               device := committed, event := event }))) ∧
    ((∀ a ∈ (Machine.getCurrentStateDefinition device).exit, ∀ d e, (a d e).state = d.state) →
     (∀ a ∈ transition.actions, ∀ d e, (a d e).state = d.state) →
     (Machine.runActions transition.actions event
        (Machine.runActions (Machine.getCurrentStateDefinition device).exit event
          device)).state = device.state) := by
  refine ⟨rfl, ?_⟩
  intro hexit hact
  rw [runActions_state _ hact, runActions_state _ hexit]

/-- Witness for C1 on a switch device and its global `on` transition. -/
theorem execute_action_order_witness :
    (Machine.runActions ({ command := "on", target := "on" } : Transition).actions
        { address := 0, command := 3 }
        (Machine.runActions
          (Machine.getCurrentStateDefinition { address := [0], type := .switch }).exit
          { address := 0, command := 3 }
          { address := [0], type := .switch })).state =
      ({ address := [0], type := .switch } : Device).state :=
  (execute_action_order { address := [0], type := .switch }
      { command := "on", target := "on" } { address := 0, command := 3 }).2
    (by intro a ha _ _; exact absurd ha (List.not_mem_nil a))
    (by intro a ha _ _; exact absurd ha (List.not_mem_nil a))

/-- Core of the silent-degradation behaviour of `receive`, shared by several
results below. -/
theorem receive_silent_core (device : Device) (event : DeviceEvent)
    (h : device.address.contains event.address = false ∨
      ∀ t ∈ Machine.getAllowedTransitions device (some event),
        commandCode t.command ≠ some event.command) :
    Machine.receive device event = (device, none) := by
  unfold Machine.receive
  rcases h with h | h
  · rw [if_neg (by rw [h]; exact Bool.false_ne_true)]
  · by_cases hc : device.address.contains event.address
    · rw [if_pos hc]
      show Machine.execute device ((Machine.getAllowedTransitions device (some event)).find?
        (fun t => commandCode t.command == some event.command)) (some event) = (device, none)
      have hfind : (Machine.getAllowedTransitions device (some event)).find?
          (fun t => commandCode t.command == some event.command) = none := by
        refine List.find?_eq_none.2 ?_
        intro t ht
        simpa using h t ht
      rw [hfind]
      rfl
    · rw [if_neg hc]

/-- `receive` reduces to `execute` on the first matching allowed transition
when the address matches. -/
theorem receive_eq_execute (device : Device) (event : DeviceEvent)
    (haddr : device.address.contains event.address = true) :
    Machine.receive device event =
      Machine.execute device
        ((Machine.getAllowedTransitions device (some event)).find?
          (fun t => commandCode t.command == some event.command)) (some event) := by
  unfold Machine.receive
  rw [if_pos haddr]

/-- C2: `Machine.receive` is a silent no-op — it returns no result, throws
nothing, and leaves the device record unchanged — when the event's address is
not among the device's addresses, or when no guard-allowed transition carries
the event's numeric command code. -/
theorem receive_no_match_silent (device : Device) (event : DeviceEvent)
    (h : device.address.contains event.address = false ∨
      ∀ t ∈ Machine.getAllowedTransitions device (some event),
        commandCode t.command ≠ some event.command) :
    Machine.receive device event = (device, none) :=
  receive_silent_core device event h

/-- Witness for C2: a switch device ignores command code 13. -/
theorem receive_no_match_silent_witness :
    Machine.receive { address := [0], type := .switch } { address := 0, command := 13 } =
      ({ address := [0], type := .switch }, none) :=
  receive_no_match_silent { address := [0], type := .switch } { address := 0, command := 13 }
    (Or.inr (by decide))


/-- C5: the switch scenario on address `[0]`.  Command 0 is ignored twice from
the initial (undefined) state with no result; command 3 switches `on`;
command 0 then toggles to `off`; command 12 keeps `off`; command 13 is mapped
to no transition and leaves the state unchanged with no result. -/
theorem switch_receive_scenario :
    let device : Device := { address := [0], type := .switch }
    let ev : ℤ → DeviceEvent := fun code => { address := 0, command := code }
    let r1 := Machine.receive device (ev 0)
    let r2 := Machine.receive r1.1 (ev 0)
    let r3 := Machine.receive r2.1 (ev 3)
    let r4 := Machine.receive r3.1 (ev 0)
    let r5 := Machine.receive r4.1 (ev 12)
    let r6 := Machine.receive r5.1 (ev 13)
    r1.1.state = none ∧ r1.2 = none ∧
    r2.1.state = none ∧ r2.2 = none ∧
    r3.1.state = some "on" ∧
    r4.1.state = some "off" ∧
    r5.1.state = some "off" ∧
    r6.1.state = some "off" ∧ r6.2 = none := by
  decide


/-- C7: the directional scenario on address `[0]` — the command sequence
up(3), stop(15), down(12), stop(15) drives the state through up, stop, down,
stop — and, in state `stop`, the guarded default-candidate resolution picks
the `up` candidate when memory is `down` or absent and the `down` candidate
when memory is `up`. -/
theorem directional_scenario_and_default :
    ((let device : Device := { address := [0], type := .directional }
      let ev : ℤ → DeviceEvent := fun code => { address := 0, command := code }
      let r1 := Machine.receive device (ev 3)
      let r2 := Machine.receive r1.1 (ev 15)
      let r3 := Machine.receive r2.1 (ev 12)
      let r4 := Machine.receive r3.1 (ev 15)
      r1.1.state = some "up" ∧ r2.1.state = some "stop" ∧
      r3.1.state = some "down" ∧ r4.1.state = some "stop")) ∧
    (∀ device : Device, device.type = .directional → device.state = some "stop" →
      ((device.memoryS = some "down" ∨ device.memoryS = none →
        (Machine.getDefaultTransition device).map (fun t => (t.command, t.target)) =
          some ("up", "up")) ∧
       (device.memoryS = some "up" →
        (Machine.getDefaultTransition device).map (fun t => (t.command, t.target)) =
          some ("down", "down")))) := by
  constructor
  · decide
  · intro device htype hstate
    constructor
    · intro hmem
      rcases hmem with hmem | hmem <;>
        simp [Machine.getDefaultTransition, Machine.defaultCandidates,
          Machine.getCurrentStateDefinition, Machine.getMachineDefinition,
          machineDefinitions, htype, hstate, DirectionalDevice.Machine,
          DirectionalDevice.defaultUp, DirectionalDevice.defaultDown, hmem,
          List.filter]
    · intro hmem
      simp [Machine.getDefaultTransition, Machine.defaultCandidates,
        Machine.getCurrentStateDefinition, Machine.getMachineDefinition,
        machineDefinitions, htype, hstate, DirectionalDevice.Machine,
        DirectionalDevice.defaultUp, DirectionalDevice.defaultDown, hmem,
        List.filter]

/-- Witness for C7 on a stopped directional device that last moved up. -/
theorem directional_scenario_and_default_witness :
    (Machine.getDefaultTransition
        { address := [0], type := .directional, state := some "stop",
          memoryS := some "up" }).map (fun t => (t.command, t.target)) =
      some ("down", "down") :=
  ((directional_scenario_and_default.2
      { address := [0], type := .directional, state := some "stop", memoryS := some "up" }
      rfl rfl).2) rfl


/-- No state of the directional-group table has exit actions. -/
theorem dg_exit_nil (s : String) :
    ((machineDefinitions .directionalGroup).states s).exit = [] := by
  show (DirectionalGroupDevice.Machine.states s).exit = []
  unfold DirectionalGroupDevice.Machine
  dsimp only
  split <;> rfl

/-- Every local transition of the directional-group table is guarded to the
own address and carries the `up-stop` or `down-stop` command. -/
theorem dg_locals_shape (s : String) :
    ∀ p ∈ ((machineDefinitions .directionalGroup).states s).transitions,
      p.2.guard = some DirectionalGroupDevice.ownGuard ∧
      (p.2.command = "up-stop" ∨ p.2.command = "down-stop") := by
  show ∀ p ∈ (DirectionalGroupDevice.Machine.states s).transitions, _
  unfold DirectionalGroupDevice.Machine
  dsimp only
  intro p hp
  split at hp <;>
    simp only [List.mem_cons, List.not_mem_nil, or_false] at hp <;>
    rcases hp with rfl | rfl <;> exact ⟨rfl, by simp⟩


/-- Executing an actionless transition between actionless states only commits
the target state. -/
theorem execute_no_actions (device : Device) (t : Transition) (event : DeviceEvent)
    (hexit : (Machine.getCurrentStateDefinition device).exit = [])
    (hact : t.actions = [])
    (henter : (Machine.getTargetStateDefinition device (some t.target)).enter = []) :
    Machine.execute device (some t) (some event) =
      ({ device with state := some t.target },
       some { state := t.target, previous := device.state,
              device := { device with state := some t.target }, event := event }) := by
  unfold Machine.execute
  simp only [hexit, hact, Machine.runActions, List.foldl_nil, henter]


/-- The allowed transitions of a directional-group device for an event on the
own address are exactly its local (own-guarded) transitions. -/
theorem dg_allowed_own (o g c : ℤ) (device : Device) (event : DeviceEvent)
    (htype : device.type = .directionalGroup) (haddr : device.address = [o, g, c])
    (hog : o ≠ g) (hoc : o ≠ c) (hev : event.address = o) :
    Machine.getAllowedTransitions device (some event) =
      (Machine.getCurrentStateDefinition device).transitions.map Prod.snd := by
  unfold Machine.getAllowedTransitions
  rw [List.filter_append]
  have h1 : ((Machine.getCurrentStateDefinition device).transitions.map Prod.snd).filter
      (fun t => match t.guard with | some g => g device (some event) | none => true) =
      (Machine.getCurrentStateDefinition device).transitions.map Prod.snd := by
    refine List.filter_eq_self.2 ?_
    intro t ht
    rw [List.mem_map] at ht
    obtain ⟨p, hp, rfl⟩ := ht
    have hshape := dg_locals_shape (device.state.getD "undefined") p ?_
    · rw [hshape.1]
      show DirectionalGroupDevice.ownGuard device (some event) = true
      unfold DirectionalGroupDevice.ownGuard
      rw [haddr]
      simp [hev]
    · unfold Machine.getCurrentStateDefinition at hp
      rw [htype] at hp
      exact hp
  have h2 : ((Machine.getMachineDefinition device).transitions.map Prod.snd).filter
      (fun t => match t.guard with | some g => g device (some event) | none => true) = [] := by
    refine List.filter_eq_nil_iff.2 ?_
    intro t ht
    unfold Machine.getMachineDefinition at ht
    rw [htype] at ht
    show ¬ (match t.guard with | some g => g device (some event) | none => true) = true
    rcases (by simpa [machineDefinitions, DirectionalGroupDevice.Machine] using ht :
        t = { command := "up", target := "up",
              guard := some DirectionalGroupDevice.groupCentralGuard } ∨
        t = { command := "down", target := "down",
              guard := some DirectionalGroupDevice.groupCentralGuard } ∨
        t = { command := "stop", target := "stop",
              guard := some DirectionalGroupDevice.groupCentralGuard }) with rfl | rfl | rfl <;>
      · show ¬ DirectionalGroupDevice.groupCentralGuard device (some event) = true
        unfold DirectionalGroupDevice.groupCentralGuard
        rw [haddr]
        simp [hev, hog.symm, hoc.symm]
  rw [h1, h2, List.append_nil]

/-- The allowed transitions of a directional-group device for an event on the
group or central address are exactly the three global transitions. -/
theorem dg_allowed_group_central (o g c : ℤ) (device : Device) (event : DeviceEvent)
    (htype : device.type = .directionalGroup) (haddr : device.address = [o, g, c])
    (hne : o ≠ event.address) (hgc : g = event.address ∨ c = event.address) :
    Machine.getAllowedTransitions device (some event) =
      (machineDefinitions .directionalGroup).transitions.map Prod.snd := by
  unfold Machine.getAllowedTransitions
  rw [List.filter_append]
  have h1 : ((Machine.getCurrentStateDefinition device).transitions.map Prod.snd).filter
      (fun t => match t.guard with | some g => g device (some event) | none => true) = [] := by
    refine List.filter_eq_nil_iff.2 ?_
    intro t ht
    rw [List.mem_map] at ht
    obtain ⟨p, hp, rfl⟩ := ht
    have hshape := dg_locals_shape (device.state.getD "undefined") p ?_
    · rw [hshape.1]
      show ¬ DirectionalGroupDevice.ownGuard device (some event) = true
      unfold DirectionalGroupDevice.ownGuard
      rw [haddr]
      simp [hne]
    · unfold Machine.getCurrentStateDefinition at hp
      rw [htype] at hp
      exact hp
  have h2 : ((Machine.getMachineDefinition device).transitions.map Prod.snd).filter
      (fun t => match t.guard with | some g => g device (some event) | none => true) =
      (machineDefinitions .directionalGroup).transitions.map Prod.snd := by
    unfold Machine.getMachineDefinition
    rw [htype]
    refine List.filter_eq_self.2 ?_
    intro t ht
    rcases (by simpa [machineDefinitions, DirectionalGroupDevice.Machine] using ht :
        t = { command := "up", target := "up",
              guard := some DirectionalGroupDevice.groupCentralGuard } ∨
        t = { command := "down", target := "down",
              guard := some DirectionalGroupDevice.groupCentralGuard } ∨
        t = { command := "stop", target := "stop",
              guard := some DirectionalGroupDevice.groupCentralGuard }) with rfl | rfl | rfl <;>
      · show DirectionalGroupDevice.groupCentralGuard device (some event) = true
        unfold DirectionalGroupDevice.groupCentralGuard
        rw [haddr]
        rcases hgc with h | h <;> simp [h]
  rw [h1, h2, List.nil_append]


/-- C8: on a directional-group device with pairwise-distinct addresses
`[own, group, central]`, the commands up (3), down (12) and stop (15) on the
own address never change the state (in any state); up on the group address
sets state `up`; down on the central address sets state `down`; and from
state `up`, up-stop (48) on the own address sets state `stop`. -/
theorem directional_group_guarding (o g c : ℤ) (device : Device)
    (htype : device.type = .directionalGroup) (haddr : device.address = [o, g, c])
    (hog : o ≠ g) (hoc : o ≠ c) (_hgc : g ≠ c) :
    (∀ code : ℤ, code = 3 ∨ code = 12 ∨ code = 15 →
      Machine.receive device { address := o, command := code } = (device, none)) ∧
    (Machine.receive device { address := g, command := 3 } =
      ({ device with state := some "up" },
       some { state := "up", previous := device.state,
              device := { device with state := some "up" },
              event := { address := g, command := 3 } })) ∧
    (Machine.receive device { address := c, command := 12 } =
      ({ device with state := some "down" },
       some { state := "down", previous := device.state,
              device := { device with state := some "down" },
              event := { address := c, command := 12 } })) ∧
    (device.state = some "up" →
      Machine.receive device { address := o, command := 48 } =
        ({ device with memoryS := some "up", state := some "stop" },
         some { state := "stop", previous := some "up",
                device := { device with memoryS := some "up", state := some "stop" },
                event := { address := o, command := 48 } })) := by
  have hcur : Machine.getCurrentStateDefinition device =
      (machineDefinitions .directionalGroup).states (device.state.getD "undefined") := by
    unfold Machine.getCurrentStateDefinition
    rw [htype]
  refine ⟨?_, ?_, ?_, ?_⟩
  · -- own address: up/down/stop are guarded away, locals carry other codes
    intro code hcode
    refine receive_silent_core device _ (Or.inr ?_)
    intro t ht
    rw [dg_allowed_own o g c device _ htype haddr hog hoc rfl] at ht
    rw [List.mem_map] at ht
    obtain ⟨p, hp, rfl⟩ := ht
    rw [hcur] at hp
    obtain ⟨-, hcmd⟩ := dg_locals_shape (device.state.getD "undefined") p hp
    rcases hcode with rfl | rfl | rfl <;> rcases hcmd with h | h <;> rw [h] <;>
      dsimp only <;> decide
  · -- group address, up
    rw [receive_eq_execute device _ (by rw [haddr]; simp)]
    rw [dg_allowed_group_central o g c device _ htype haddr (by simpa using hog)
      (Or.inl rfl)]
    have hfind : ((machineDefinitions .directionalGroup).transitions.map Prod.snd).find?
        (fun t => commandCode t.command ==
          some ({ address := g, command := 3 } : DeviceEvent).command) =
        some { command := "up", target := "up",
               guard := some DirectionalGroupDevice.groupCentralGuard } := rfl
    rw [hfind]
    exact execute_no_actions device _ _ (by rw [hcur]; exact dg_exit_nil _) rfl
      (by unfold Machine.getTargetStateDefinition; rw [htype]; rfl)
  · -- central address, down
    rw [receive_eq_execute device _ (by rw [haddr]; simp)]
    rw [dg_allowed_group_central o g c device _ htype haddr (by simpa using hoc)
      (Or.inr rfl)]
    have hfind : ((machineDefinitions .directionalGroup).transitions.map Prod.snd).find?
        (fun t => commandCode t.command ==
          some ({ address := c, command := 12 } : DeviceEvent).command) =
        some { command := "down", target := "down",
               guard := some DirectionalGroupDevice.groupCentralGuard } := rfl
    rw [hfind]
    exact execute_no_actions device _ _ (by rw [hcur]; exact dg_exit_nil _) rfl
      (by unfold Machine.getTargetStateDefinition; rw [htype]; rfl)
  · -- own address, up-stop from state up
    intro hstate
    rw [receive_eq_execute device _ (by rw [haddr]; simp)]
    rw [dg_allowed_own o g c device _ htype haddr hog hoc rfl]
    have hcur2 : Machine.getCurrentStateDefinition device =
        (machineDefinitions .directionalGroup).states "up" := by
      rw [hcur, hstate]
      rfl
    rw [hcur2]
    have hfind : (((machineDefinitions .directionalGroup).states "up").transitions.map
          Prod.snd).find?
        (fun t => commandCode t.command ==
          some ({ address := o, command := 48 } : DeviceEvent).command) =
        some { command := "up-stop", target := "stop",
               guard := some DirectionalGroupDevice.ownGuard } := rfl
    rw [hfind]
    have hexit : (Machine.getCurrentStateDefinition device).exit = [] := by
      rw [hcur2]
      exact dg_exit_nil "up"
    unfold Machine.execute
    simp only [Machine.runActions, hexit, List.foldl_nil]
    unfold Machine.getTargetStateDefinition
    rw [htype]
    simp only [machineDefinitions, DirectionalGroupDevice.Machine, Option.getD_some,
      List.foldl_cons, List.foldl_nil, DirectionalGroupDevice.stopEnter]
    rw [hstate, htype]

/-- Witness for C8 at the concrete addresses `[0, 1, 2]` in state `up`. -/
theorem directional_group_guarding_witness :
    Machine.receive
        { address := [0, 1, 2], type := .directionalGroup, state := some "up" }
        { address := 0, command := 3 } =
      ({ address := [0, 1, 2], type := .directionalGroup, state := some "up" }, none) :=
  (directional_group_guarding 0 1 2
      { address := [0, 1, 2], type := .directionalGroup, state := some "up" }
      rfl rfl (by decide) (by decide) (by decide)).1 3 (Or.inl rfl)


/-- No state of the dimmer table has exit actions. -/
theorem dimmer_exit_nil (s : String) :
    ((machineDefinitions .dimmer).states s).exit = [] := by
  show (DimmerDevice.Machine.states s).exit = []
  unfold DimmerDevice.Machine
  dsimp only
  split <;> rfl

/-- Every local transition of the dimmer table is the unguarded `toggle`. -/
theorem dimmer_locals_shape (s : String) :
    ∀ p ∈ ((machineDefinitions .dimmer).states s).transitions,
      p.2.guard = none ∧ p.2.command = "toggle" := by
  show ∀ p ∈ (DimmerDevice.Machine.states s).transitions, _
  unfold DimmerDevice.Machine
  dsimp only
  intro p hp
  split at hp <;>
    simp only [List.mem_cons, List.not_mem_nil, or_false] at hp <;>
    rcases hp with rfl <;> exact ⟨rfl, rfl⟩

/-- The dimmer table has no guards, so every transition is allowed. -/
theorem dimmer_allowed (device : Device) (event? : Option DeviceEvent)
    (htype : device.type = .dimmer) :
    Machine.getAllowedTransitions device event? =
      (Machine.getCurrentStateDefinition device).transitions.map Prod.snd ++
        (machineDefinitions .dimmer).transitions.map Prod.snd := by
  unfold Machine.getAllowedTransitions Machine.getMachineDefinition
  rw [htype]
  refine List.filter_eq_self.2 ?_
  intro t ht
  rw [List.mem_append] at ht
  rcases ht with ht | ht
  · obtain ⟨p, hp, rfl⟩ := List.mem_map.1 ht
    have hg := (dimmer_locals_shape (device.state.getD "undefined") p
      (by unfold Machine.getCurrentStateDefinition at hp; rw [htype] at hp; exact hp)).1
    rw [hg]
  · rcases (by simpa [machineDefinitions, DimmerDevice.Machine] using ht :
        t = { target := "on", command := "on", actions := [DimmerDevice.setBrightness] } ∨
        t = { command := "off", target := "off" }) with rfl | rfl <;> rfl

/-- C6: dimmer brightness/memory management.  A receive that enters `on` via
the global `on` transition stores the payload's unpacked brightness (or `1.0`
without payload); moving from `on` to `off` (toggle or global off) snapshots
the brightness into memory and zeroes it; toggling from `off` back to `on`
restores the memory value, defaulting to `1.0` only when memory is absent. -/
theorem dimmer_brightness_memory (device : Device) (event : DeviceEvent)
    (htype : device.type = .dimmer) (haddr : device.address.contains event.address = true) :
    (event.command = 3 →
      Machine.receive device event =
        (let lit := { device with
            state := some "on"
            brightness := some (match event.data with
              | some data => (DimmerData.unpackProperties data).brightness
              | none => 1.0) }
         (lit, some { state := "on", previous := device.state, device := lit,
                      event := event }))) ∧
    (device.state = some "on" → event.command = 0 ∨ event.command = 12 →
      Machine.receive device event =
        (let lit := { device with
            memoryQ := device.brightness
            brightness := some 0.0
            state := some "off" }
         (lit, some { state := "off", previous := some "on", device := lit,
                      event := event }))) ∧
    (device.state = some "off" → event.command = 0 →
      Machine.receive device event =
        (let lit := { device with
            brightness := some (device.memoryQ.getD 1.0)
            state := some "on" }
         (lit, some { state := "on", previous := some "off", device := lit,
                      event := event }))) := by
  have hcur : Machine.getCurrentStateDefinition device =
      (machineDefinitions .dimmer).states (device.state.getD "undefined") := by
    unfold Machine.getCurrentStateDefinition
    rw [htype]
  have hexit : (Machine.getCurrentStateDefinition device).exit = [] := by
    rw [hcur]
    exact dimmer_exit_nil _
  refine ⟨?_, ?_, ?_⟩
  · -- global on
    intro hcmd
    rw [receive_eq_execute device event haddr, dimmer_allowed device (some event) htype,
      List.find?_append]
    have hloc : ((Machine.getCurrentStateDefinition device).transitions.map Prod.snd).find?
        (fun t => commandCode t.command == some event.command) = none := by
      refine List.find?_eq_none.2 ?_
      intro t ht
      obtain ⟨p, hp, rfl⟩ := List.mem_map.1 ht
      rw [(dimmer_locals_shape (device.state.getD "undefined") p
        (by rw [hcur] at hp; exact hp)).2, hcmd]
      decide
    rw [hloc, Option.none_or]
    have hglob : (((machineDefinitions .dimmer).transitions.map Prod.snd).find?
        (fun t => commandCode t.command == some event.command)) =
        some { target := "on", command := "on", actions := [DimmerDevice.setBrightness] } := by
      rw [hcmd]
      rfl
    rw [hglob]
    unfold Machine.execute
    simp only [Machine.runActions, hexit, List.foldl_nil, List.foldl_cons]
    unfold DimmerDevice.setBrightness
    rcases hdata : event.data with - | data <;>
      · simp only [hdata]
        unfold Machine.getTargetStateDefinition
        simp only [machineDefinitions, DimmerDevice.Machine, Option.getD_some,
          List.foldl_nil, htype]
  · -- on to off
    intro hstate hcmd
    have hcur2 : Machine.getCurrentStateDefinition device =
        (machineDefinitions .dimmer).states "on" := by
      rw [hcur, hstate]
      rfl
    rw [receive_eq_execute device event haddr, dimmer_allowed device (some event) htype,
      hcur2, List.find?_append]
    rcases hcmd with hcmd | hcmd
    · have hfind : ((((machineDefinitions .dimmer).states "on").transitions.map
            Prod.snd).find?
          (fun t => commandCode t.command == some event.command)) =
          some { command := "toggle", target := "off" } := by
        rw [hcmd]
        rfl
      rw [hfind]
      show Machine.execute device (some { command := "toggle", target := "off" })
        (some event) = _
      unfold Machine.execute
      simp only [Machine.runActions, hexit, List.foldl_nil]
      unfold Machine.getTargetStateDefinition
      simp only [machineDefinitions, DimmerDevice.Machine, Option.getD_some,
        List.foldl_cons, List.foldl_nil, DimmerDevice.resetBrightness, htype]
      rw [hstate]
    · have hloc : ((((machineDefinitions .dimmer).states "on").transitions.map
            Prod.snd).find?
          (fun t => commandCode t.command == some event.command)) = none := by
        rw [hcmd]
        rfl
      rw [hloc, Option.none_or]
      have hglob : (((machineDefinitions .dimmer).transitions.map Prod.snd).find?
          (fun t => commandCode t.command == some event.command)) =
          some { command := "off", target := "off" } := by
        rw [hcmd]
        rfl
      rw [hglob]
      unfold Machine.execute
      simp only [Machine.runActions, hexit, List.foldl_nil]
      unfold Machine.getTargetStateDefinition
      simp only [machineDefinitions, DimmerDevice.Machine, Option.getD_some,
        List.foldl_cons, List.foldl_nil, DimmerDevice.resetBrightness, htype]
      rw [hstate]
  · -- off to on, restoring memory
    intro hstate hcmd
    have hcur2 : Machine.getCurrentStateDefinition device =
        (machineDefinitions .dimmer).states "off" := by
      rw [hcur, hstate]
      rfl
    rw [receive_eq_execute device event haddr, dimmer_allowed device (some event) htype,
      hcur2, List.find?_append]
    have hfind : ((((machineDefinitions .dimmer).states "off").transitions.map
          Prod.snd).find?
        (fun t => commandCode t.command == some event.command)) =
        some { command := "toggle", target := "on",
               actions := [DimmerDevice.restoreBrightness] } := by
      rw [hcmd]
      rfl
    rw [hfind]
    show Machine.execute device
      (some { command := "toggle", target := "on",
              actions := [DimmerDevice.restoreBrightness] }) (some event) = _
    unfold Machine.execute
    simp only [Machine.runActions, hexit, List.foldl_nil, List.foldl_cons]
    unfold DimmerDevice.restoreBrightness
    unfold Machine.getTargetStateDefinition
    simp only [machineDefinitions, DimmerDevice.Machine, Option.getD_some,
      List.foldl_nil, htype]
    rw [hstate]

/-- Witness for C6: toggling a dimmer off and back on restores memory. -/
theorem dimmer_brightness_memory_witness :
    Machine.receive
        { address := [5], type := .dimmer, state := some "off",
          brightness := some 0.0, memoryQ := some (1/2) }
        { address := 5, command := 0 } =
      (let lit : Device := {
          address := [5]
          type := .dimmer
          state := some "on"
          brightness := some ((some (1/2 : ℚ)).getD 1.0)
          memoryQ := some (1/2) }
       (lit, some { state := "on", previous := some "off", device := lit,
                    event := { address := 5, command := 0 } })) :=
  (dimmer_brightness_memory
      { address := [5], type := .dimmer, state := some "off",
        brightness := some 0.0, memoryQ := some (1/2) }
      { address := 5, command := 0 } rfl (by decide)).2.2 rfl rfl


/-- The validating constructor on a valid address and catalog name yields the
event with the resolved code and no payload. -/
theorem make_name_ok {a : ℤ} (hlow : 0 ≤ a) (hhigh : a ≤ 242) {name : String}
    {code : ℤ} (hcode : commandCode name = some code) :
    DeviceEvent.make a (.inr name) none = .ok { address := a, command := code } := by
  unfold DeviceEvent.make
  rw [if_neg (by simp only [not_or, not_lt]; exact ⟨hlow, hhigh⟩)]
  dsimp only
  rw [if_neg (by simp [isCommand, hcode])]
  unfold DeviceEvent.withData
  rw [hcode]
  rfl

/-- C9: `Machine.transmit` with the sentinel `default` command.  When no
default is defined, or the guard-filtered candidate list does not have
exactly one element, it returns no event and leaves the device unchanged.
When resolution yields exactly one transition, it builds the event from that
transition's command and, with `changeState` at its default, feeds it back
into `receive`.  On a freshly constructed directional device (state
undefined) it emits command code 3 (`up`) and sets the state to `up`. -/
theorem transmit_default_resolution :
    (∀ (device : Device) (data? : Option (List ℤ ⊕ DimmerData)) (ai : ℕ) (cs : Bool),
      (Machine.getCurrentStateDefinition device).default = none ∨
        (Machine.defaultCandidates device).length ≠ 1 →
      Machine.transmit device .default data? ai cs = .ok (device, none)) ∧
    (∀ (device : Device) (t : Transition),
      Machine.defaultCandidates device = [t] →
      ∀ a : ℤ, device.address.get? 0 = some a → 0 ≤ a → a ≤ 242 →
      ∀ code : ℤ, commandCode t.command = some code →
      Machine.transmit device .default none 0 true =
        .ok ((Machine.receive device { address := a, command := code }).1,
             some { address := a, command := code })) ∧
    (Machine.transmit { address := [0], type := .directional } .default none 0 true =
      .ok ({ address := [0], type := .directional, state := some "up" },
           some { address := 0, command := 3 })) := by
  refine ⟨?_, ?_, by rfl⟩
  · intro device data? ai cs h
    have hnone : Machine.getDefaultTransition device = none := by
      show (if (Machine.defaultCandidates device).length = 1
        then (Machine.defaultCandidates device).head? else none) = none
      rcases h with h | h
      · have hcand : Machine.defaultCandidates device = [] := by
          unfold Machine.defaultCandidates
          simp only [h, List.filter_nil]
        rw [hcand]
        rfl
      · rw [if_neg h]
    unfold Machine.transmit
    rw [hnone]
    cases device.address.get? ai <;> rfl
  · intro device t hcand a ha hlow hhigh code hcode
    have hdef : Machine.getDefaultTransition device = some t := by
      unfold Machine.getDefaultTransition
      rw [hcand]
      rfl
    unfold Machine.transmit
    rw [hdef, ha]
    simp only [Option.map_some]
    rw [show Machine.getMachineDefinition device = machineDefinitions device.type from rfl]
    rcases hty : device.type <;>
      simp only [machineDefinitions, SwitchingDevice.Machine, DimmerDevice.Machine,
        DirectionalDevice.Machine, DirectionalGroupDevice.Machine,
        DimmerDevice.createEvent] <;>
      dsimp only [Option.map] <;>
      rw [make_name_ok hlow hhigh hcode] <;>
      rfl

/-- Witness for C9 on a fresh directional device: its default resolves to the
single global `up` transition. -/
theorem transmit_default_resolution_witness :
    Machine.transmit { address := [0], type := .directional } .default none 0 true =
      .ok ((Machine.receive { address := [0], type := .directional }
              { address := 0, command := 3 }).1,
           some { address := 0, command := 3 }) :=
  transmit_default_resolution.2.1 { address := [0], type := .directional }
    { command := "up", target := "up" } rfl 0 rfl (by decide) (by decide) 3 rfl


/-- Witness for C4: an out-of-range address is rejected. -/
theorem validation_fail_fast_witness :
    ∃ e, DeviceEvent.make 300 (.inl 3) none = .error e :=
  (validation_fail_fast.1 300 (.inl 3) none).2 (Or.inl (Or.inr (by decide)))

end ZBus
